import Mathlib

/-!
Verification of the Apefighter simulation core.

Shallow embedding of the simulation engine in `src/Apefighter.cxx`: the
per-frame collision and damage resolution, guidance, spawning and the
player actions (`playerShoot`, `playerFireMissile`, `playerBomb`), together
with the session bookkeeping they mutate (score, combo, lives, boss latch,
high score).  Rendering, input translation and the cosmetic background
layers (stars, clouds, mountains) are outside the claims and are omitted.

Modelling conventions:
* C `float` quantities are embedded as `ℚ`, C `int` counters as `ℤ`.
* The source compares `dist2D p q = sqrtf(dx²+dy²)` against radii; since
  the square root is monotone, every such comparison is embedded as the
  equivalent comparison of the squared distance against the squared
  radius (`dist2Dsq`).
* Where the source divides by a computed length `len = sqrtf(dx²+dy²)`
  (missile spawning and homing), the (generally irrational) `len` is
  passed as an explicit parameter; theorems that depend on its value
  carry the hypothesis `len * len = dx²+dy² ∧ 0 ≤ len`.
* Calls to the C `rand()` are fed from an injected stream of naturals
  (`Game.rng`), consumed one value per `rand()` call in source order.
-/

namespace Apefighter

/-- `enum GameState` (the `STATE_WIN` member is declared but unreachable). -/
inductive GameState where
  | menu | playing | paused | gameover | win
deriving DecidableEq, Repr

/-- `SCREEN_W`. -/
def SCREEN_W : ℚ := 720
/-- `SCREEN_H`. -/
def SCREEN_H : ℚ := 1600
/-- `HUD_H = 160 * UI_SCALE` with `UI_SCALE = 2`. -/
def HUD_H : ℚ := 320
/-- `PLAY_H = SCREEN_H - HUD_H`. -/
def PLAY_H : ℚ := SCREEN_H - HUD_H

/-- `lerp`. -/
def lerp (a b t : ℚ) : ℚ := a + (b - a) * t

/-- `clamp`. -/
def clamp (v lo hi : ℚ) : ℚ := if v < lo then lo else if hi < v then hi else v

/-- Squared distance.  The source's `dist2D` returns `sqrtf(dx²+dy²)` and is
only ever compared against nonnegative radii or other distances, so all its
uses are embedded through the squared form. -/
def dist2Dsq (x1 y1 x2 y2 : ℚ) : ℚ :=
  (x2 - x1) * (x2 - x1) + (y2 - y1) * (y2 - y1)

/-- `struct Bullet` (the visual tint `col` is render-only and omitted). -/
structure Bullet where
  x : ℚ
  y : ℚ
  vx : ℚ
  vy : ℚ
  active : Bool
  isEnemy : Bool
  damage : ℤ
deriving DecidableEq, Repr

/-- `struct Missile`. -/
structure Missile where
  x : ℚ
  y : ℚ
  vx : ℚ
  vy : ℚ
  targetX : ℚ
  targetY : ℚ
  active : Bool
  isEnemy : Bool
  damage : ℤ
  life : ℚ
deriving DecidableEq, Repr

/-- `struct Explosion` (cosmetic; kept because collision outcomes push one). -/
structure Explosion where
  x : ℚ
  y : ℚ
  radius : ℚ
  maxRadius : ℚ
  life : ℚ
  maxLife : ℚ
deriving DecidableEq, Repr

/-- `struct PowerUp`; `type`: 0=health, 1=shield, 2=rapid, 3=missile, 4=bomb. -/
structure PowerUp where
  x : ℚ
  y : ℚ
  vy : ℚ
  active : Bool
  type : ℕ
  bob : ℚ
deriving DecidableEq, Repr

/-- `struct EnemyJet`; `type`: 0=basic, 1=fast, 2=heavy, 3=boss. -/
structure EnemyJet where
  x : ℚ
  y : ℚ
  vx : ℚ
  vy : ℚ
  active : Bool
  hp : ℤ
  maxHp : ℤ
  type : ℕ
  shootTimer : ℚ
  shootInterval : ℚ
  moveTimer : ℚ
  depth : ℚ
  score : ℤ
deriving DecidableEq, Repr

/-- `struct Player` (thruster animation and drag offsets are render-only
and omitted; `tiltX` kept since the update loop writes it). -/
structure Player where
  x : ℚ
  y : ℚ
  hp : ℤ
  maxHp : ℤ
  shield : ℤ
  maxShield : ℤ
  shieldActive : Bool
  shieldTimer : ℚ
  score : ℤ
  lives : ℤ
  level : ℤ
  kills : ℤ
  ammo : ℤ
  bombs : ℤ
  rapidFire : Bool
  rapidTimer : ℚ
  shootCooldown : ℚ
  shootTimer : ℚ
  invTimer : ℚ
  dragging : Bool
  tiltX : ℚ
deriving DecidableEq, Repr

/-- `struct Game`: the session-owned state the simulation core mutates
(window/renderer handles, background layers and HUD button rectangles are
external-interface data and omitted).  `rng` is the injected randomness
stream feeding the source's `rand()` calls. -/
structure Game where
  state : GameState
  player : Player
  bullets : List Bullet
  missiles : List Missile
  explosions : List Explosion
  powerups : List PowerUp
  enemies : List EnemyJet
  dt : ℚ
  gameTime : ℚ
  enemySpawnTimer : ℚ
  enemySpawnInterval : ℚ
  powerupSpawnTimer : ℚ
  bossAlive : Bool
  combo : ℤ
  comboTimer : ℚ
  highScore : ℤ
  shakeTimer : ℚ
  shakeAmt : ℚ
  gameoverTimer : ℚ
  touchX : ℚ
  touchY : ℚ
  rng : List ℕ
deriving DecidableEq, Repr

/-- One `rand()` call: pops the next value of the injected stream. -/
def randNext (g : Game) : ℕ × Game :=
  (g.rng.headD 0, { g with rng := g.rng.tail })

/-- `initPlayer`. -/
def initPlayer : Player :=
  { x := SCREEN_W / 2, y := PLAY_H - 200, hp := 100, maxHp := 100,
    shield := 50, maxShield := 50, shieldActive := false, shieldTimer := 0,
    score := 0, lives := 3, level := 1, kills := 0, ammo := 10, bombs := 3,
    rapidFire := false, rapidTimer := 0, shootCooldown := 3/20,
    shootTimer := 0, invTimer := 0, dragging := false, tiltX := 0 }

/-- The `Game` member initialisers of `struct Game` plus `initPlayer`. -/
def initGame : Game :=
  { state := GameState.menu, player := initPlayer, bullets := [],
    missiles := [], explosions := [], powerups := [], enemies := [],
    dt := 0, gameTime := 0, enemySpawnTimer := 0, enemySpawnInterval := 2,
    powerupSpawnTimer := 0, bossAlive := false, combo := 0, comboTimer := 0,
    highScore := 0, shakeTimer := 0, shakeAmt := 0, gameoverTimer := 0,
    touchX := SCREEN_W / 2, touchY := PLAY_H / 2, rng := [] }

/-- `spawnExplosion` (the colour argument is render-only and dropped). -/
def spawnExplosion (g : Game) (x y sz : ℚ) : Game :=
  { g with
    explosions := g.explosions ++
      [{ x := x, y := y, radius := sz * (1/10), maxRadius := sz,
         life := 1/2, maxLife := 1/2 }],
    shakeTimer := 1/5, shakeAmt := sz * (1/2) }

/-- `spawnBullet`. -/
def spawnBullet (g : Game) (x y vx vy : ℚ) (isEnemy : Bool) (dmg : ℤ) :
    Game :=
  { g with bullets := g.bullets ++
      [{ x := x, y := y, vx := vx, vy := vy, active := true,
         isEnemy := isEnemy, damage := dmg }] }

/-- `spawnMissile`.  The source sets the initial velocity to the direction
`(tx-x, ty-y)` normalised by `len = sqrtf(dx²+dy²)` times 400 (skipping the
normalisation when `len = 0`); `len` is the explicit square-root parameter. -/
def spawnMissile (g : Game) (x y tx ty : ℚ) (isEnemy : Bool) (dmg : ℤ)
    (len : ℚ) : Game :=
  let dx := tx - x
  let dy := ty - y
  let d : ℚ × ℚ := if 0 < len then (dx / len, dy / len) else (dx, dy)
  { g with missiles := g.missiles ++
      [{ x := x, y := y, vx := d.1 * 400, vy := d.2 * 400,
         targetX := tx, targetY := ty, active := true, isEnemy := isEnemy,
         damage := dmg, life := 3 }] }

/-- `spawnPowerup`; `rand() % 5` chooses the kind. -/
def spawnPowerup (g : Game) (x y : ℚ) : Game :=
  let r := randNext g
  { r.2 with powerups := r.2.powerups ++
      [{ x := x, y := y, vy := 80, active := true, type := r.1 % 5,
         bob := 0 }] }

/-- `spawnEnemy`.  `rand()` is consumed in source order: horizontal
position, depth, then (for non-boss archetypes) the horizontal direction.
The boss overrides the position to the horizontal centre. -/
def spawnEnemy (g : Game) (ty : ℕ) : Game :=
  let r1 := randNext g
  let r2 := randNext r1.2
  let base : EnemyJet :=
    { x := 60 + ((r1.1 % 600 : ℕ) : ℚ), y := -80, vx := 0, vy := 0,
      active := true, hp := 0, maxHp := 0, type := ty, shootTimer := 0,
      shootInterval := 0, moveTimer := 0,
      depth := 5 + ((r2.1 % 10 : ℕ) : ℚ), score := 0 }
  let step : EnemyJet × Game :=
    if ty = 0 then
      let r3 := randNext r2.2
      ({ base with hp := 30, maxHp := 30,
                   vx := if r3.1 % 2 ≠ 0 then 60 else -60, vy := 80,
                   shootInterval := 3/2, score := 100 }, r3.2)
    else if ty = 1 then
      let r3 := randNext r2.2
      ({ base with hp := 20, maxHp := 20,
                   vx := if r3.1 % 2 ≠ 0 then 120 else -120, vy := 160,
                   shootInterval := 1, score := 200 }, r3.2)
    else if ty = 2 then
      let r3 := randNext r2.2
      ({ base with hp := 80, maxHp := 80,
                   vx := if r3.1 % 2 ≠ 0 then 40 else -40, vy := 60,
                   shootInterval := 4/5, score := 500 }, r3.2)
    else
      ({ base with x := SCREEN_W / 2, hp := 500, maxHp := 500, vx := 100,
                   vy := 30, shootInterval := 2/5, score := 5000 }, r2.2)
  { step.2 with enemies := step.2.enemies ++
      [{ step.1 with shootTimer := step.1.shootInterval }] }

/-- `playerShoot`. -/
def playerShoot (g : Game) : Game :=
  let p := g.player
  if 0 < p.shootTimer then g
  else
    let cd := if p.rapidFire then 1/20 else p.shootCooldown
    let g1 := { g with player := { p with shootTimer := cd } }
    let g2 := spawnBullet g1 (p.x - 15) (p.y - 40) 0 (-700) false 10
    let g3 := spawnBullet g2 (p.x + 15) (p.y - 40) 0 (-700) false 10
    { g3 with shakeAmt := 2, shakeTimer := 3/100 }

/-- `playerFireMissile`.  The nearest-enemy search compares `dist2D` values
against the running minimum (initially 9999); it is embedded on squared
distances.  `len` parametrises the `sqrtf` inside the `spawnMissile` call. -/
def playerFireMissile (g : Game) (len : ℚ) : Game :=
  let p := g.player
  if p.ammo ≤ 0 then g
  else
    let g1 := { g with player := { p with ammo := p.ammo - 1 } }
    let tgt := g1.enemies.foldl
      (fun (acc : ℚ × ℚ × ℚ) e =>
        if e.active then
          let d2 := dist2Dsq p.x p.y e.x e.y
          if d2 < acc.1 then (d2, e.x, e.y) else acc
        else acc)
      (9999 * 9999, p.x, -100)
    spawnMissile g1 p.x (p.y - 40) tgt.2.1 tgt.2.2 false 50 len

/-- Body of the `playerBomb` loop for one enemy: 150 damage to every
active enemy, an explosion each, and kill bookkeeping (base score with no
combo multiplier, kill count, combo increment, combo timer reset). -/
def bombEnemy (g : Game) (e : EnemyJet) : Game × EnemyJet :=
  if e.active = true then
    let e1 := { e with hp := e.hp - 150 }
    let g1 := spawnExplosion g e.x e.y 60
    if e1.hp ≤ 0 then
      let e2 := { e1 with active := false }
      let p := g1.player
      ({ g1 with
          player := { p with score := p.score + e2.score,
                             kills := p.kills + 1 },
          combo := g1.combo + 1, comboTimer := 2 }, e2)
    else (g1, e1)
  else (g, e)

/-- One iteration of the `playerBomb` loop as a fold step over
(game, already-processed enemies). -/
def bombStep (a : Game × List EnemyJet) (e : EnemyJet) :
    Game × List EnemyJet :=
  let s := bombEnemy a.1 e
  (s.1, a.2 ++ [s.2])

/-- `playerBomb`. -/
def playerBomb (g : Game) : Game :=
  let p := g.player
  if p.bombs ≤ 0 then g
  else
    let g0 := { g with player := { p with bombs := p.bombs - 1 } }
    let r := g0.enemies.foldl bombStep (g0, [])
    let g1 := { r.1 with enemies := r.2 }
    let g2 := { g1 with shakeAmt := 20, shakeTimer := 1/2 }
    spawnExplosion g2 (SCREEN_W / 2) (PLAY_H / 2) 300

/-- The boss trigger of `updateGame`:
`if (g.gameTime > 90 && !g.bossAlive) { g.bossAlive = true; spawnEnemy(g, 3); }`. -/
def bossSpawnStep (g : Game) : Game :=
  if 90 < g.gameTime ∧ g.bossAlive = false then
    spawnEnemy { g with bossAlive := true } 3
  else g

/-- Per-archetype hit radius for bullets: 50 for the boss, 30 otherwise. -/
def bulletHitR (e : EnemyJet) : ℚ := if e.type = 3 then 50 else 30

/-- Per-archetype hit radius for missiles: 60 for the boss, 35 otherwise. -/
def missileHitR (e : EnemyJet) : ℚ := if e.type = 3 then 60 else 35

/-- Body of the player-bullet/enemy inner loop of `updateGame` for one
enemy.  Note that the source loop neither breaks after a hit nor re-tests
`b.active`, so this body runs for every enemy of the pool. -/
def bulletHitEnemy (g : Game) (b : Bullet) (e : EnemyJet) :
    Game × Bullet × EnemyJet :=
  if e.active = true then
    if dist2Dsq b.x b.y e.x e.y < bulletHitR e * bulletHitR e then
      let b1 := { b with active := false }
      let e1 := { e with hp := e.hp - b.damage }
      let g1 := spawnExplosion g b.x b.y 20
      if e1.hp ≤ 0 then
        let e2 := { e1 with active := false }
        let p := g1.player
        let g2 := { g1 with
          player := { p with
            score := p.score + e2.score * (1 + g1.combo / 5),
            kills := p.kills + 1,
            level := if e2.type = 3 then p.level + 1 else p.level },
          combo := g1.combo + 1, comboTimer := 2,
          bossAlive := if e2.type = 3 then false else g1.bossAlive }
        let g3 := spawnExplosion g2 e2.x e2.y (if e2.type = 3 then 120 else 50)
        let r := randNext g3
        let g4 := if r.1 % 3 = 0 then spawnPowerup r.2 e2.x e2.y else r.2
        (g4, b1, e2)
      else (g1, b1, e1)
    else (g, b, e)
  else (g, b, e)

/-- One iteration of the player-bullet enemy loop as a fold step over
(game, bullet, already-scanned enemies). -/
def bulletScanStep (a : Game × Bullet × List EnemyJet) (e : EnemyJet) :
    Game × Bullet × List EnemyJet :=
  let s := bulletHitEnemy a.1 a.2.1 e
  (s.1, s.2.1, a.2.2 ++ [s.2.2])

/-- The full enemy scan a player-owned bullet runs in a frame. -/
def bulletEnemiesScan (g : Game) (b : Bullet) : Game × Bullet :=
  let r := g.enemies.foldl bulletScanStep (g, b, [])
  ({ r.1 with enemies := r.2.2 }, r.2.1)

/-- The enemy-bullet/player test of `updateGame` (hit radius 30, gated on
`p.invTimer <= 0`): shield absorption when `shieldActive && shield > 0`
(floored at 0), otherwise health damage; invulnerability 0.5s; on a fatal
hit a life is lost and either the session ends (recording the high score)
or health is restored with a 3s invulnerability window. -/
def bulletHitPlayer (g : Game) (b : Bullet) : Game × Bullet :=
  let p := g.player
  if p.invTimer ≤ 0 ∧ dist2Dsq b.x b.y p.x p.y < 30 * 30 then
    let b1 := { b with active := false }
    let p1 : Player :=
      if p.shieldActive = true ∧ 0 < p.shield then
        let s := p.shield - b.damage
        { p with shield := if s < 0 then 0 else s }
      else { p with hp := p.hp - b.damage }
    let p2 := { p1 with invTimer := 1/2 }
    let g1 := spawnExplosion { g with player := p2 } p2.x p2.y 25
    if p2.hp ≤ 0 then
      let p3 := { p2 with lives := p2.lives - 1 }
      if p3.lives ≤ 0 then
        ({ g1 with player := p3,
                   highScore := if g1.highScore < p3.score then p3.score
                                else g1.highScore,
                   state := GameState.gameover, gameoverTimer := 0 }, b1)
      else
        ({ g1 with player := { p3 with hp := p3.maxHp, invTimer := 3 } }, b1)
    else ({ g1 with player := p2 }, b1)
  else (g, b)

/-- One bullet's slice of the `updateGame` bullet loop: integrate,
deactivate out of bounds, then resolve collisions for the owning side. -/
def updateBullet (g : Game) (b : Bullet) : Game × Bullet :=
  if b.active = false then (g, b)
  else
    let b1 := { b with x := b.x + b.vx * g.dt, y := b.y + b.vy * g.dt }
    let b2 := if b1.y < -20 ∨ PLAY_H + 20 < b1.y ∨ b1.x < -20 ∨
                 SCREEN_W + 20 < b1.x
              then { b1 with active := false } else b1
    if b2.isEnemy = false then bulletEnemiesScan g b2
    else bulletHitPlayer g b2

/-- The homing step of the missile loop: find the nearest active enemy by
distance (embedded on squared distances, initial minimum 9999²) and blend
the velocity toward the full-speed vector at it with factor `dt*3`.  `len`
parametrises `sqrtf(dx²+dy²)` for the found target; when the guard
`len > 0` fails the raw difference `(dx, dy)` is used unnormalised, exactly
as in the source. -/
def missileHoming (g : Game) (m : Missile) (len : ℚ) : Missile :=
  if m.isEnemy = false ∧ g.enemies ≠ [] then
    let tgt := g.enemies.foldl
      (fun (acc : ℚ × Option (ℚ × ℚ)) e =>
        if e.active then
          let d2 := dist2Dsq m.x m.y e.x e.y
          if d2 < acc.1 then (d2, some (e.x, e.y)) else acc
        else acc)
      (9999 * 9999, none)
    match tgt.2 with
    | some t =>
        let dx := t.1 - m.x
        let dy := t.2 - m.y
        let d : ℚ × ℚ := if 0 < len then (dx / len, dy / len) else (dx, dy)
        { m with vx := lerp m.vx (d.1 * 500) (g.dt * 3),
                 vy := lerp m.vy (d.2 * 500) (g.dt * 3) }
    | none => m
  else m

/-- Body of the player-missile/enemy inner loop for one enemy (radius 60
for the boss, 35 otherwise; again no break after a hit).  A missile kill
awards double base score and a kill, clears the boss latch for a boss, and
rolls a 1-in-2 drop; it touches neither combo, combo timer nor level. -/
def missileHitEnemy (g : Game) (m : Missile) (e : EnemyJet) :
    Game × Missile × EnemyJet :=
  if e.active = true then
    if dist2Dsq m.x m.y e.x e.y < missileHitR e * missileHitR e then
      let m1 := { m with active := false }
      let e1 := { e with hp := e.hp - m.damage }
      let g1 := spawnExplosion g m.x m.y 60
      if e1.hp ≤ 0 then
        let e2 := { e1 with active := false }
        let p := g1.player
        let g2 := { g1 with
          player := { p with score := p.score + e2.score * 2,
                             kills := p.kills + 1 },
          bossAlive := if e2.type = 3 then false else g1.bossAlive }
        let r := randNext g2
        let g3 := if r.1 % 2 = 0 then spawnPowerup r.2 e2.x e2.y else r.2
        (g3, m1, e2)
      else (g1, m1, e1)
    else (g, m, e)
  else (g, m, e)

/-- One iteration of the player-missile enemy loop as a fold step. -/
def missileScanStep (a : Game × Missile × List EnemyJet) (e : EnemyJet) :
    Game × Missile × List EnemyJet :=
  let s := missileHitEnemy a.1 a.2.1 e
  (s.1, s.2.1, a.2.2 ++ [s.2.2])

/-- The full enemy scan a player-owned missile runs in a frame. -/
def missileEnemiesScan (g : Game) (m : Missile) : Game × Missile :=
  let r := g.enemies.foldl missileScanStep (g, m, [])
  ({ r.1 with enemies := r.2.2 }, r.2.1)

/-- The enemy-missile/player test (radius 35, gated on `p.invTimer <= 0`).
The source subtracts the damage from health directly — there is no shield
branch here — sets a 1s invulnerability window, and on a fatal hit either
ends the session (without touching the high score) or restores health. -/
def missileHitPlayer (g : Game) (m : Missile) : Game × Missile :=
  let p := g.player
  if p.invTimer ≤ 0 ∧ dist2Dsq m.x m.y p.x p.y < 35 * 35 then
    let m1 := { m with active := false }
    let p1 := { p with hp := p.hp - m.damage, invTimer := 1 }
    let g1 := spawnExplosion { g with player := p1 } p1.x p1.y 60
    if p1.hp ≤ 0 then
      let p2 := { p1 with lives := p1.lives - 1 }
      if p2.lives ≤ 0 then
        ({ g1 with player := p2, state := GameState.gameover,
                   gameoverTimer := 0 }, m1)
      else
        ({ g1 with player := { p2 with hp := p2.maxHp, invTimer := 3 } }, m1)
    else ({ g1 with player := p1 }, m1)
  else (g, m)

/-- One missile's slice of the `updateGame` missile loop: lifetime decay,
homing, integration, collision for the owning side, out-of-bounds. -/
def updateMissile (g : Game) (m : Missile) (len : ℚ) : Game × Missile :=
  if m.active = false then (g, m)
  else
    let m1 := { m with life := m.life - g.dt }
    if m1.life ≤ 0 then (g, { m1 with active := false })
    else
      let m2 := missileHoming g m1 len
      let m3 := { m2 with x := m2.x + m2.vx * g.dt, y := m2.y + m2.vy * g.dt }
      let r := if m3.isEnemy = false then missileEnemiesScan g m3
               else missileHitPlayer g m3
      let m4 := if r.2.y < -50 ∨ PLAY_H + 50 < r.2.y ∨ r.2.x < -50 ∨
                   SCREEN_W + 50 < r.2.x
                then { r.2 with active := false } else r.2
      (r.1, m4)

/-- One powerup's slice of the `updateGame` powerup loop: fall, leave the
playable area, or be collected by the player within distance 40 (collection
is not gated on the invulnerability timer); collection applies the
kind-specific effect and unconditionally adds 50 score. -/
def updatePowerup (g : Game) (pu : PowerUp) : Game × PowerUp :=
  if pu.active = false then (g, pu)
  else
    let pu1 := { pu with y := pu.y + pu.vy * g.dt, bob := pu.bob + g.dt }
    if PLAY_H + 50 < pu1.y then (g, { pu1 with active := false })
    else
      let p := g.player
      if dist2Dsq pu1.x pu1.y p.x p.y < 40 * 40 then
        let pu2 := { pu1 with active := false }
        let p1 : Player :=
          if pu2.type = 0 then { p with hp := min p.maxHp (p.hp + 30) }
          else if pu2.type = 1 then
            { p with shield := min p.maxShield (p.shield + 30),
                     shieldActive := true, shieldTimer := 5 }
          else if pu2.type = 2 then
            { p with rapidFire := true, rapidTimer := 8 }
          else if pu2.type = 3 then { p with ammo := p.ammo + 5 }
          else if pu2.type = 4 then { p with bombs := p.bombs + 1 }
          else p
        let g1 := spawnExplosion { g with player := p1 } pu2.x pu2.y 30
        ({ g1 with player := { g1.player with
            score := g1.player.score + 50 } }, pu2)
      else (g, pu1)

/-- The level recomputation at the end of every `updateGame` frame:
`p.level = 1 + (int)(g.gameTime / 30)` (`gameTime` is nonnegative, so the
C truncation is the floor). -/
def levelStep (g : Game) : Game :=
  { g with player := { g.player with level := 1 + ⌊g.gameTime / 30⌋ } }

/-- The `STATE_GAMEOVER` branch of `handleTouch`: full session reset and
re-entry into `STATE_PLAYING`.  It never writes `highScore`. -/
def restartFromGameOver (g : Game) : Game :=
  { g with player := initPlayer, enemies := [], bullets := [],
           missiles := [], explosions := [], powerups := [], gameTime := 0,
           bossAlive := false, state := GameState.playing }

/-! ## Concrete states used by the witnesses and counterexamples -/

/-- A running session with the missile ammunition exhausted. -/
def gAmmo0 : Game :=
  { initGame with state := GameState.playing,
                  player := { initPlayer with ammo := 0 } }

/-- A running session on the last life with 10 hp and score 5000 (the
stored high score is 0). -/
def gC3 : Game :=
  { initGame with state := GameState.playing,
                  player := { initPlayer with hp := 10, lives := 1,
                                              score := 5000 } }

/-- An adversary-owned guided munition of damage 25 at the player's
position. -/
def mC3 : Missile :=
  { x := initPlayer.x, y := initPlayer.y, vx := 0, vy := 0,
    targetX := initPlayer.x, targetY := initPlayer.y, active := true,
    isEnemy := true, damage := 25, life := 1 }

/-- A running session with an active shield at full charge. -/
def gC4 : Game :=
  { initGame with state := GameState.playing,
                  player := { initPlayer with shieldActive := true,
                                              shieldTimer := 5 } }

/-- An adversary-owned bullet of damage 10 at the player's position. -/
def bC4 : Bullet :=
  { x := initPlayer.x, y := initPlayer.y, vx := 0, vy := 250,
    active := true, isEnemy := true, damage := 10 }

/-- A live basic adversary sitting exactly at position (300, 400). -/
def eC7 : EnemyJet :=
  { x := 300, y := 400, vx := 60, vy := 80, active := true, hp := 30,
    maxHp := 30, type := 0, shootTimer := 3/2, shootInterval := 3/2,
    moveTimer := 0, depth := 5, score := 100 }

/-- A player-owned guided munition at (300, 400) — coincident with
`eC7` — currently moving horizontally at speed 100. -/
def mC7 : Missile :=
  { x := 300, y := 400, vx := 100, vy := 0, targetX := 300, targetY := 400,
    active := true, isEnemy := false, damage := 50, life := 2 }

/-- A running session at dt = 1/20 whose only adversary is `eC7`. -/
def gC7 : Game :=
  { initGame with state := GameState.playing, dt := 1/20,
                  enemies := [eC7] }

/-- A heal pickup exactly at the player's spawn position. -/
def puC10 : PowerUp :=
  { x := initPlayer.x, y := initPlayer.y, vy := 80, active := true,
    type := 0, bob := 0 }

/-- A running session (dt = 0) used for the pickup-collection witness. -/
def gC10 : Game :=
  { initGame with state := GameState.playing }

/-! ## C9 -/

/-- C9: calling the fire-munition action with ammo = 0 is a no-op — the
whole state, in particular ammo, score and every entity pool, is
unchanged (`playerFireMissile` returns before spawning anything). -/
theorem C9_fireMissile_noop (g : Game) (len : ℚ) (h : g.player.ammo = 0) :
    playerFireMissile g len = g ∧
    (playerFireMissile g len).player.ammo = g.player.ammo ∧
    (playerFireMissile g len).player.score = g.player.score ∧
    (playerFireMissile g len).bullets.length = g.bullets.length ∧
    (playerFireMissile g len).missiles.length = g.missiles.length ∧
    (playerFireMissile g len).enemies.length = g.enemies.length ∧
    (playerFireMissile g len).powerups.length = g.powerups.length ∧
    (playerFireMissile g len).explosions.length = g.explosions.length := by
  have h0 : g.player.ammo ≤ 0 := le_of_eq h
  have key : playerFireMissile g len = g := by
    unfold playerFireMissile
    simp [h0]
  simp [key]

/-- C9 witness: the no-op at a concrete exhausted state. -/
theorem C9_fireMissile_noop_witness : playerFireMissile gAmmo0 0 = gAmmo0 :=
  (C9_fireMissile_noop gAmmo0 0 rfl).1

/-! ## C3 -/

/-- C3 (code bug): a fatal adversary-missile hit ends the session but
skips the high-score update the bullet-death path performs: at `gC3`
(score 5000, stored high score 0, last life) the state transitions to
GameOver with `highScore` still 0; moreover the missile path never writes
`highScore` for any state, and neither does the restart path. -/
theorem C3_missile_death_skips_highscore :
    (missileHitPlayer gC3 mC3).1.state = GameState.gameover ∧
    (missileHitPlayer gC3 mC3).1.player.score = 5000 ∧
    (missileHitPlayer gC3 mC3).1.highScore = 0 ∧
    (∀ g m, (missileHitPlayer g m).1.highScore = g.highScore) ∧
    (∀ g, (restartFromGameOver g).highScore = g.highScore) := by
  have hall : ∀ g m, (missileHitPlayer g m).1.highScore = g.highScore := by
    intro g m
    simp only [missileHitPlayer, spawnExplosion]
    split_ifs <;> rfl
  refine ⟨?_, ?_, ?_, hall, fun g => rfl⟩ <;>
    norm_num [missileHitPlayer, spawnExplosion, dist2Dsq, gC3, mC3,
      initGame, initPlayer, SCREEN_W, SCREEN_H, HUD_H, PLAY_H]

/-! ## C7 -/

/-- C7 counterexample: with the guidance target coincident with the
munition (enemy `eC7` at `mC7`'s position) and dt = 1/20, the munition's
horizontal velocity changes from 100 to 85 — the velocity is NOT left
unchanged for that frame. -/
theorem C7_counterexample :
    (missileHoming gC7 mC7 0).vx = 85 ∧
    ¬ (missileHoming gC7 mC7 0).vx = mC7.vx := by
  norm_num [missileHoming, lerp, dist2Dsq, gC7, mC7, eC7, initGame,
    initPlayer, SCREEN_W, SCREEN_H, HUD_H, PLAY_H]

/-- C7 (amended): when the direction vector from a player-owned guided
munition to its nearest live adversary has zero length, no division is
performed (the `len > 0` normalisation guard is skipped), but the velocity
is blended toward the zero vector — `v' = v * (1 - 3*dt)` — rather than
left unchanged. -/
theorem C7_zero_direction_no_div (g : Game) (m : Missile) (e : EnemyJet)
    (len : ℚ)
    (hown : m.isEnemy = false)
    (hes : g.enemies = [e])
    (ha : e.active = true)
    (hx : e.x = m.x) (hy : e.y = m.y)
    (hlen : len * len = dist2Dsq m.x m.y e.x e.y) (hpos : 0 ≤ len) :
    (missileHoming g m len).vx = m.vx * (1 - 3 * g.dt) ∧
    (missileHoming g m len).vy = m.vy * (1 - 3 * g.dt) ∧
    (missileHoming g m len).x = m.x ∧
    (missileHoming g m len).y = m.y ∧
    (missileHoming g m len).active = m.active := by
  have hd : dist2Dsq m.x m.y e.x e.y = 0 := by
    simp [dist2Dsq, hx, hy]
  have hlen0 : len = 0 := by
    have h2 : len * len = 0 := by rw [hlen, hd]
    exact mul_self_eq_zero.1 h2
  subst hlen0
  unfold missileHoming
  rw [hes]
  norm_num [hown, ha, hd, hx, hy, lerp, dist2Dsq]
  constructor <;> ring

/-- C7 witness: the amended behaviour at the concrete coincident state. -/
theorem C7_zero_direction_no_div_witness :
    (missileHoming gC7 mC7 0).vx = mC7.vx * (1 - 3 * gC7.dt) :=
  (C7_zero_direction_no_div gC7 mC7 eC7 0 rfl rfl rfl rfl rfl
    (by norm_num [dist2Dsq, mC7, eC7]) le_rfl).1

/-! ## C4 -/

/-- C4 counterexample: with the shield active at full charge (50) an
adversary guided munition of damage 25 reduces health from 100 to 75 and
leaves the shield at 50 — the shield does NOT absorb munition damage. -/
theorem C4_counterexample :
    (missileHitPlayer gC4 mC3).1.player.hp = 75 ∧
    (missileHitPlayer gC4 mC3).1.player.shield = 50 ∧
    ¬ (missileHitPlayer gC4 mC3).1.player.hp = gC4.player.hp := by
  norm_num [missileHitPlayer, spawnExplosion, dist2Dsq, gC4, mC3,
    initGame, initPlayer, SCREEN_W, SCREEN_H, HUD_H, PLAY_H]

/-- C4 (amended): for adversary bullets the claim holds — with the shield
active and positive the damage is subtracted from the shield (floored at
0) and health is unchanged, otherwise it is subtracted from health, and
the invulnerability timer is set to 1/2 — but adversary guided munitions
always subtract their damage from health (bypassing the shield) and set
the timer to 1.  Both parts are stated for non-fatal hits. -/
theorem C4_shield_absorbs_bullets_not_missiles (g : Game) (b : Bullet)
    (hinv : g.player.invTimer ≤ 0)
    (hdist : dist2Dsq b.x b.y g.player.x g.player.y < 30 * 30)
    (hdmg : 0 ≤ b.damage)
    (hsafe : 0 < g.player.hp - b.damage) :
    ((g.player.shieldActive = true ∧ 0 < g.player.shield →
        (bulletHitPlayer g b).1.player.shield
          = (if g.player.shield - b.damage < 0 then 0
             else g.player.shield - b.damage) ∧
        (bulletHitPlayer g b).1.player.hp = g.player.hp) ∧
     (¬ (g.player.shieldActive = true ∧ 0 < g.player.shield) →
        (bulletHitPlayer g b).1.player.hp = g.player.hp - b.damage ∧
        (bulletHitPlayer g b).1.player.shield = g.player.shield) ∧
     (bulletHitPlayer g b).1.player.invTimer = 1/2 ∧
     (bulletHitPlayer g b).2.active = false) ∧
    (∀ g' m, g'.player.invTimer ≤ 0 →
      dist2Dsq m.x m.y g'.player.x g'.player.y < 35 * 35 →
      0 < g'.player.hp - m.damage →
      (missileHitPlayer g' m).1.player.hp = g'.player.hp - m.damage ∧
      (missileHitPlayer g' m).1.player.shield = g'.player.shield ∧
      (missileHitPlayer g' m).1.player.invTimer = 1 ∧
      (missileHitPlayer g' m).2.active = false) := by
  constructor
  · unfold bulletHitPlayer
    rw [if_pos ⟨hinv, hdist⟩]
    by_cases hs : g.player.shieldActive = true ∧ 0 < g.player.shield
    · rw [if_pos hs]
      have hnd : ¬ g.player.hp ≤ 0 := by omega
      simp only [spawnExplosion]
      refine ⟨fun _ => ?_, fun hc => absurd hs hc, ?_, ?_⟩ <;>
        simp [hnd]
    · rw [if_neg hs]
      have hnd : ¬ g.player.hp - b.damage ≤ 0 := by omega
      simp only [spawnExplosion]
      refine ⟨fun hc => absurd hc hs, fun _ => ?_, ?_, ?_⟩ <;>
        simp [hnd]
  · intro g' m hinv' hdist' hsafe'
    unfold missileHitPlayer
    rw [if_pos ⟨hinv', hdist'⟩]
    have hnd : ¬ g'.player.hp - m.damage ≤ 0 := by omega
    simp only [spawnExplosion]
    simp [hnd]

/-- C4 witness: a shield-absorbed bullet hit at a concrete state. -/
theorem C4_shield_absorbs_bullets_not_missiles_witness :
    (bulletHitPlayer gC4 bC4).1.player.invTimer = 1/2 :=
  ((C4_shield_absorbs_bullets_not_missiles gC4 bC4
      (by norm_num [gC4, initPlayer, initGame])
      (by norm_num [dist2Dsq, gC4, bC4, initGame, initPlayer])
      (by norm_num [bC4])
      (by norm_num [gC4, bC4, initGame, initPlayer])).1).2.2.1

/-! ## C10 -/

/-- C10: collecting any pickup — player within distance 40 of the (moved)
pickup, in any invulnerability state — deactivates the pickup, applies the
kind-specific effect, and adds exactly 50 to the score for every kind
uniformly. -/
theorem C10_pickup_collect (g : Game) (pu : PowerUp)
    (ha : pu.active = true)
    (hin : ¬ PLAY_H + 50 < pu.y + pu.vy * g.dt)
    (hd : dist2Dsq pu.x (pu.y + pu.vy * g.dt) g.player.x g.player.y
            < 40 * 40) :
    (updatePowerup g pu).2.active = false ∧
    (updatePowerup g pu).1.player.score = g.player.score + 50 ∧
    (pu.type = 0 → (updatePowerup g pu).1.player.hp
        = min g.player.maxHp (g.player.hp + 30)) ∧
    (pu.type = 1 → (updatePowerup g pu).1.player.shield
        = min g.player.maxShield (g.player.shield + 30) ∧
      (updatePowerup g pu).1.player.shieldActive = true ∧
      (updatePowerup g pu).1.player.shieldTimer = 5) ∧
    (pu.type = 2 → (updatePowerup g pu).1.player.rapidFire = true ∧
      (updatePowerup g pu).1.player.rapidTimer = 8) ∧
    (pu.type = 3 → (updatePowerup g pu).1.player.ammo
        = g.player.ammo + 5) ∧
    (pu.type = 4 → (updatePowerup g pu).1.player.bombs
        = g.player.bombs + 1) := by
  unfold updatePowerup
  simp only [ha, spawnExplosion]
  rw [if_neg (by simp)]
  rw [if_neg (by simpa using hin), if_pos (by simpa using hd)]
  refine ⟨by simp, ?_, ?_, ?_, ?_, ?_, ?_⟩ <;>
    first
      | (intro ht; simp [ht])
      | (simp; split_ifs <;> simp)

/-- C10 witness: collecting a heal pickup at a concrete state. -/
theorem C10_pickup_collect_witness :
    (updatePowerup gC10 puC10).1.player.score = gC10.player.score + 50 :=
  (C10_pickup_collect gC10 puC10 rfl
      (by norm_num [gC10, puC10, initGame, initPlayer, PLAY_H, SCREEN_H,
        HUD_H, SCREEN_W])
      (by norm_num [dist2Dsq, gC10, puC10, initGame, initPlayer, SCREEN_W,
        SCREEN_H, HUD_H, PLAY_H])).2.1

/-! ## C1: the enemy scans of player projectiles and munitions -/

/-- The bullet component of `bulletHitEnemy`: consumed exactly when the
enemy was active and within radius. -/
lemma bulletHitEnemy_bullet (g : Game) (b : Bullet) (e : EnemyJet) :
    (bulletHitEnemy g b e).2.1
      = if e.active = true ∧
            dist2Dsq b.x b.y e.x e.y < bulletHitR e * bulletHitR e
        then { b with active := false } else b := by
  unfold bulletHitEnemy
  by_cases hea : e.active = true
  · by_cases hd : dist2Dsq b.x b.y e.x e.y < bulletHitR e * bulletHitR e
    · simp only [hea, hd, and_self, if_true, ite_true, if_pos]
      split <;> rfl
    · simp [hea, hd]
  · simp [hea]

/-- The enemy component of `bulletHitEnemy`: damaged (and deactivated on
death) exactly when active and within radius. -/
lemma bulletHitEnemy_enemy (g : Game) (b : Bullet) (e : EnemyJet) :
    (bulletHitEnemy g b e).2.2
      = if e.active = true ∧
            dist2Dsq b.x b.y e.x e.y < bulletHitR e * bulletHitR e
        then (if e.hp - b.damage ≤ 0 then
                { e with hp := e.hp - b.damage, active := false }
              else { e with hp := e.hp - b.damage })
        else e := by
  unfold bulletHitEnemy
  by_cases hea : e.active = true
  · by_cases hd : dist2Dsq b.x b.y e.x e.y < bulletHitR e * bulletHitR e
    · simp only [hea, hd, and_self, if_true, ite_true, if_pos]
      split_ifs <;> rfl
    · simp [hea, hd]
  · simp [hea]

/-- Characterisation of the full bullet/enemy scan fold: the source loop
neither breaks after a hit nor re-tests `b.active`, so every active enemy
within radius is damaged, independently of the others; the bullet ends
inactive exactly when it started inactive or some enemy was hit. -/
lemma bulletScanFold_spec (es : List EnemyJet) :
    ∀ (g : Game) (b : Bullet) (acc : List EnemyJet),
      (es.foldl bulletScanStep (g, b, acc)).2.2
        = acc ++ es.map (fun e =>
            if e.active = true ∧
                dist2Dsq b.x b.y e.x e.y < bulletHitR e * bulletHitR e then
              (if e.hp - b.damage ≤ 0 then
                { e with hp := e.hp - b.damage, active := false }
              else { e with hp := e.hp - b.damage })
            else e) ∧
      (es.foldl bulletScanStep (g, b, acc)).2.1
        = { b with active := b.active &&
              !(es.any (fun e => e.active &&
                decide (dist2Dsq b.x b.y e.x e.y
                  < bulletHitR e * bulletHitR e))) } := by
  induction es with
  | nil =>
    intro g b acc
    constructor
    · simp
    · simp
  | cons e tl ih =>
    intro g b acc
    rw [List.foldl_cons]
    rw [show bulletScanStep (g, b, acc) e
        = ((bulletHitEnemy g b e).1, (bulletHitEnemy g b e).2.1,
           acc ++ [(bulletHitEnemy g b e).2.2]) from rfl]
    rw [bulletHitEnemy_bullet, bulletHitEnemy_enemy]
    by_cases hea : e.active = true
    · by_cases hd : dist2Dsq b.x b.y e.x e.y < bulletHitR e * bulletHitR e
      · rw [if_pos ⟨hea, hd⟩, if_pos ⟨hea, hd⟩]
        obtain ⟨ih1, ih2⟩ := ih (bulletHitEnemy g b e).1
          { b with active := false }
          (acc ++ [if e.hp - b.damage ≤ 0 then
              { e with hp := e.hp - b.damage, active := false }
            else { e with hp := e.hp - b.damage }])
        constructor
        · rw [ih1]; simp [hea, hd]
        · rw [ih2]; simp [hea, hd]
      · rw [if_neg (fun h => hd h.2), if_neg (fun h => hd h.2)]
        obtain ⟨ih1, ih2⟩ := ih (bulletHitEnemy g b e).1 b (acc ++ [e])
        constructor
        · rw [ih1]; simp [hea, hd]
        · rw [ih2]; simp [hea, hd]
    · rw [if_neg (fun h => hea h.1), if_neg (fun h => hea h.1)]
      obtain ⟨ih1, ih2⟩ := ih (bulletHitEnemy g b e).1 b (acc ++ [e])
      constructor
      · rw [ih1]; simp [hea]
      · rw [ih2]; simp [hea]

/-- The missile component of `missileHitEnemy`. -/
lemma missileHitEnemy_missile (g : Game) (m : Missile) (e : EnemyJet) :
    (missileHitEnemy g m e).2.1
      = if e.active = true ∧
            dist2Dsq m.x m.y e.x e.y < missileHitR e * missileHitR e
        then { m with active := false } else m := by
  unfold missileHitEnemy
  by_cases hea : e.active = true
  · by_cases hd : dist2Dsq m.x m.y e.x e.y < missileHitR e * missileHitR e
    · simp only [hea, hd, and_self, if_true, ite_true, if_pos]
      split <;> rfl
    · simp [hea, hd]
  · simp [hea]

/-- The enemy component of `missileHitEnemy`. -/
lemma missileHitEnemy_enemy (g : Game) (m : Missile) (e : EnemyJet) :
    (missileHitEnemy g m e).2.2
      = if e.active = true ∧
            dist2Dsq m.x m.y e.x e.y < missileHitR e * missileHitR e
        then (if e.hp - m.damage ≤ 0 then
                { e with hp := e.hp - m.damage, active := false }
              else { e with hp := e.hp - m.damage })
        else e := by
  unfold missileHitEnemy
  by_cases hea : e.active = true
  · by_cases hd : dist2Dsq m.x m.y e.x e.y < missileHitR e * missileHitR e
    · simp only [hea, hd, and_self, if_true, ite_true, if_pos]
      split_ifs <;> rfl
    · simp [hea, hd]
  · simp [hea]

/-- Characterisation of the full missile/enemy scan fold, exactly like
`bulletScanFold_spec`. -/
lemma missileScanFold_spec (es : List EnemyJet) :
    ∀ (g : Game) (m : Missile) (acc : List EnemyJet),
      (es.foldl missileScanStep (g, m, acc)).2.2
        = acc ++ es.map (fun e =>
            if e.active = true ∧
                dist2Dsq m.x m.y e.x e.y < missileHitR e * missileHitR e then
              (if e.hp - m.damage ≤ 0 then
                { e with hp := e.hp - m.damage, active := false }
              else { e with hp := e.hp - m.damage })
            else e) ∧
      (es.foldl missileScanStep (g, m, acc)).2.1
        = { m with active := m.active &&
              !(es.any (fun e => e.active &&
                decide (dist2Dsq m.x m.y e.x e.y
                  < missileHitR e * missileHitR e))) } := by
  induction es with
  | nil =>
    intro g m acc
    constructor
    · simp
    · simp
  | cons e tl ih =>
    intro g m acc
    rw [List.foldl_cons]
    rw [show missileScanStep (g, m, acc) e
        = ((missileHitEnemy g m e).1, (missileHitEnemy g m e).2.1,
           acc ++ [(missileHitEnemy g m e).2.2]) from rfl]
    rw [missileHitEnemy_missile, missileHitEnemy_enemy]
    by_cases hea : e.active = true
    · by_cases hd : dist2Dsq m.x m.y e.x e.y < missileHitR e * missileHitR e
      · rw [if_pos ⟨hea, hd⟩, if_pos ⟨hea, hd⟩]
        obtain ⟨ih1, ih2⟩ := ih (missileHitEnemy g m e).1
          { m with active := false }
          (acc ++ [if e.hp - m.damage ≤ 0 then
              { e with hp := e.hp - m.damage, active := false }
            else { e with hp := e.hp - m.damage }])
        constructor
        · rw [ih1]; simp [hea, hd]
        · rw [ih2]; simp [hea, hd]
      · rw [if_neg (fun h => hd h.2), if_neg (fun h => hd h.2)]
        obtain ⟨ih1, ih2⟩ := ih (missileHitEnemy g m e).1 m (acc ++ [e])
        constructor
        · rw [ih1]; simp [hea, hd]
        · rw [ih2]; simp [hea, hd]
    · rw [if_neg (fun h => hea h.1), if_neg (fun h => hea h.1)]
      obtain ⟨ih1, ih2⟩ := ih (missileHitEnemy g m e).1 m (acc ++ [e])
      constructor
      · rw [ih1]; simp [hea]
      · rw [ih2]; simp [hea]

/-- C1 (amended): a player-owned projectile's (or munition's) frame scan
damages EVERY active adversary within its per-archetype hit radius
(50/30 for bullets, 60/35 for munitions) by its full damage —
deactivating those whose hit points drop to ≤ 0 — and the projectile is
consumed exactly when some adversary was within radius; it is not limited
to the first adversary, so one projectile can damage several adversaries
in a single frame. -/
theorem C1_scan_hits_every_enemy_in_radius (g : Game) (b : Bullet)
    (m : Missile) :
    ((bulletEnemiesScan g b).1.enemies
      = g.enemies.map (fun e =>
          if e.active = true ∧
              dist2Dsq b.x b.y e.x e.y < bulletHitR e * bulletHitR e then
            (if e.hp - b.damage ≤ 0 then
              { e with hp := e.hp - b.damage, active := false }
            else { e with hp := e.hp - b.damage })
          else e)) ∧
    ((bulletEnemiesScan g b).2.active
      = (b.active && !(g.enemies.any (fun e => e.active &&
          decide (dist2Dsq b.x b.y e.x e.y
            < bulletHitR e * bulletHitR e))))) ∧
    ((missileEnemiesScan g m).1.enemies
      = g.enemies.map (fun e =>
          if e.active = true ∧
              dist2Dsq m.x m.y e.x e.y < missileHitR e * missileHitR e then
            (if e.hp - m.damage ≤ 0 then
              { e with hp := e.hp - m.damage, active := false }
            else { e with hp := e.hp - m.damage })
          else e)) ∧
    ((missileEnemiesScan g m).2.active
      = (m.active && !(g.enemies.any (fun e => e.active &&
          decide (dist2Dsq m.x m.y e.x e.y
            < missileHitR e * missileHitR e))))) := by
  obtain ⟨hb1, hb2⟩ := bulletScanFold_spec g.enemies g b []
  obtain ⟨hm1, hm2⟩ := missileScanFold_spec g.enemies g m []
  refine ⟨?_, ?_, ?_, ?_⟩
  · show (g.enemies.foldl bulletScanStep (g, b, [])).2.2 = _
    rw [hb1]; simp
  · show ((g.enemies.foldl bulletScanStep (g, b, [])).2.1).active = _
    rw [hb2]
  · show (g.enemies.foldl missileScanStep (g, m, [])).2.2 = _
    rw [hm1]; simp
  · show ((g.enemies.foldl missileScanStep (g, m, [])).2.1).active = _
    rw [hm2]

/-- A player bullet of damage 10 at (100, 100). -/
def bC1 : Bullet :=
  { x := 100, y := 100, vx := 0, vy := -700, active := true,
    isEnemy := false, damage := 10 }

/-- A live basic adversary at (100, 110): within radius 30 of `bC1`. -/
def eC1a : EnemyJet :=
  { x := 100, y := 110, vx := 60, vy := 80, active := true, hp := 30,
    maxHp := 30, type := 0, shootTimer := 3/2, shootInterval := 3/2,
    moveTimer := 0, depth := 5, score := 100 }

/-- A second live basic adversary at (100, 90): also within radius 30. -/
def eC1b : EnemyJet :=
  { x := 100, y := 90, vx := -60, vy := 80, active := true, hp := 30,
    maxHp := 30, type := 0, shootTimer := 3/2, shootInterval := 3/2,
    moveTimer := 0, depth := 5, score := 100 }

/-- A running session with both `eC1a` and `eC1b` alive. -/
def gC1 : Game :=
  { initGame with state := GameState.playing, enemies := [eC1a, eC1b] }

/-- C1 counterexample: one player bullet with two active adversaries
inside its hit radius damages BOTH of them in the same frame (each drops
from 30 to 20 hp), refuting that exactly one adversary loses the
projectile's damage. -/
theorem C1_counterexample :
    ((bulletEnemiesScan gC1 bC1).1.enemies.map (fun e => e.hp)) = [20, 20]
      ∧ (bulletEnemiesScan gC1 bC1).2.active = false := by
  norm_num [bulletEnemiesScan, bulletScanStep, bulletHitEnemy, bulletHitR,
    spawnExplosion, spawnPowerup, randNext, dist2Dsq, gC1, bC1, eC1a, eC1b,
    initGame, initPlayer]

/-! ## C8 and C2: the bomb action and the boss latch -/

/-- Characterisation of the `playerBomb` loop fold: every active enemy
loses exactly 150 hp (deactivated at ≤ 0), the score grows by the base
scores of the killed enemies (no combo multiplier), and every other
player counter, the session state and the boss latch are untouched. -/
lemma bombFold_spec (es : List EnemyJet) :
    ∀ (g : Game) (acc : List EnemyJet),
      (es.foldl bombStep (g, acc)).2
        = acc ++ es.map (fun e =>
            if e.active = true then
              (if e.hp - 150 ≤ 0 then
                { e with hp := e.hp - 150, active := false }
              else { e with hp := e.hp - 150 })
            else e) ∧
      (es.foldl bombStep (g, acc)).1.player.score
        = g.player.score + ((es.filter (fun e =>
            e.active && decide (e.hp - 150 ≤ 0))).map
              (fun e => e.score)).sum ∧
      (es.foldl bombStep (g, acc)).1.player.bombs = g.player.bombs ∧
      (es.foldl bombStep (g, acc)).1.player.hp = g.player.hp ∧
      (es.foldl bombStep (g, acc)).1.player.maxHp = g.player.maxHp ∧
      (es.foldl bombStep (g, acc)).1.player.shield = g.player.shield ∧
      (es.foldl bombStep (g, acc)).1.player.maxShield
        = g.player.maxShield ∧
      (es.foldl bombStep (g, acc)).1.player.ammo = g.player.ammo ∧
      (es.foldl bombStep (g, acc)).1.player.lives = g.player.lives ∧
      (es.foldl bombStep (g, acc)).1.state = g.state ∧
      (es.foldl bombStep (g, acc)).1.bossAlive = g.bossAlive := by
  induction es with
  | nil =>
    intro g acc
    exact ⟨by simp, by simp, rfl, rfl, rfl, rfl, rfl, rfl, rfl, rfl, rfl⟩
  | cons e tl ih =>
    intro g acc
    rw [List.foldl_cons,
      show bombStep (g, acc) e
        = ((bombEnemy g e).1, acc ++ [(bombEnemy g e).2]) from rfl]
    by_cases hea : e.active = true
    · by_cases hk : e.hp - 150 ≤ 0
      · have hk' : e.hp ≤ 150 := by omega
        have hb1 : (bombEnemy g e).1
            = { spawnExplosion g e.x e.y 60 with
                player := { g.player with
                  score := g.player.score + e.score,
                  kills := g.player.kills + 1 },
                combo := g.combo + 1, comboTimer := 2 } := by
          simp [bombEnemy, spawnExplosion, hea, hk]
        have hb2 : (bombEnemy g e).2
            = { e with hp := e.hp - 150, active := false } := by
          simp [bombEnemy, hea, hk]
        rw [hb1, hb2]
        obtain ⟨i1, i2, i3, i4, i5, i6, i7, i8, i9, i10, i11⟩ :=
          ih { spawnExplosion g e.x e.y 60 with
                player := { g.player with
                  score := g.player.score + e.score,
                  kills := g.player.kills + 1 },
                combo := g.combo + 1, comboTimer := 2 }
             (acc ++ [{ e with hp := e.hp - 150, active := false }])
        refine ⟨?_, ?_, ?_, ?_, ?_, ?_, ?_, ?_, ?_, ?_, ?_⟩
        · rw [i1]; simp [hea, hk']
        · rw [i2]; simp only [spawnExplosion]; simp [hea, hk']; omega
        · rw [i3]
        · rw [i4]
        · rw [i5]
        · rw [i6]
        · rw [i7]
        · rw [i8]
        · rw [i9]
        · rw [i10]; rfl
        · rw [i11]; rfl
      · have hk' : ¬ e.hp ≤ 150 := by omega
        have hb1 : (bombEnemy g e).1 = spawnExplosion g e.x e.y 60 := by
          simp [bombEnemy, hea, hk]
        have hb2 : (bombEnemy g e).2 = { e with hp := e.hp - 150 } := by
          simp [bombEnemy, hea, hk]
        rw [hb1, hb2]
        obtain ⟨i1, i2, i3, i4, i5, i6, i7, i8, i9, i10, i11⟩ :=
          ih (spawnExplosion g e.x e.y 60)
             (acc ++ [{ e with hp := e.hp - 150 }])
        refine ⟨?_, ?_, ?_, ?_, ?_, ?_, ?_, ?_, ?_, ?_, ?_⟩
        · rw [i1]; simp [hea, hk']
        · rw [i2]; simp only [spawnExplosion]; simp [hea, hk']
        · rw [i3]; rfl
        · rw [i4]; rfl
        · rw [i5]; rfl
        · rw [i6]; rfl
        · rw [i7]; rfl
        · rw [i8]; rfl
        · rw [i9]; rfl
        · rw [i10]; rfl
        · rw [i11]; rfl
    · have hb1 : (bombEnemy g e).1 = g := by simp [bombEnemy, hea]
      have hb2 : (bombEnemy g e).2 = e := by simp [bombEnemy, hea]
      rw [hb1, hb2]
      obtain ⟨i1, i2, i3, i4, i5, i6, i7, i8, i9, i10, i11⟩ :=
        ih g (acc ++ [e])
      refine ⟨?_, ?_, ?_, ?_, ?_, ?_, ?_, ?_, ?_, ?_, ?_⟩
      · rw [i1]; simp [hea]
      · rw [i2]; simp [hea]
      · rw [i3]
      · rw [i4]
      · rw [i5]
      · rw [i6]
      · rw [i7]
      · rw [i8]
      · rw [i9]
      · rw [i10]
      · rw [i11]

/-- C8: the bomb action with bombs > 0 decrements bombs by one, reduces
every live adversary's hit points by exactly 150 (deactivating those that
drop to ≤ 0) and adds exactly the sum of the killed adversaries' base
archetype scores — no combo multiplier — to the score. -/
theorem C8_bomb_damages_all (g : Game) (hb : 0 < g.player.bombs) :
    (playerBomb g).player.bombs = g.player.bombs - 1 ∧
    (playerBomb g).enemies
      = g.enemies.map (fun e =>
          if e.active = true then
            (if e.hp - 150 ≤ 0 then
              { e with hp := e.hp - 150, active := false }
            else { e with hp := e.hp - 150 })
          else e) ∧
    (playerBomb g).player.score
      = g.player.score + ((g.enemies.filter (fun e =>
          e.active && decide (e.hp - 150 ≤ 0))).map
            (fun e => e.score)).sum := by
  have hnb : ¬ g.player.bombs ≤ 0 := by omega
  obtain ⟨f1, f2, f3, _⟩ := bombFold_spec g.enemies
    { g with player := { g.player with bombs := g.player.bombs - 1 } } []
  have key : playerBomb g
      = spawnExplosion
          { { (g.enemies.foldl bombStep
                ({ g with player := { g.player with
                    bombs := g.player.bombs - 1 } }, [])).1 with
              enemies := (g.enemies.foldl bombStep
                ({ g with player := { g.player with
                    bombs := g.player.bombs - 1 } }, [])).2 } with
            shakeAmt := 20, shakeTimer := 1/2 }
          (SCREEN_W / 2) (PLAY_H / 2) 300 := by
    unfold playerBomb
    rw [if_neg hnb]
  rw [key]
  refine ⟨?_, ?_, ?_⟩
  · show (spawnExplosion _ _ _ _).player.bombs = _
    simp only [spawnExplosion]
    rw [f3]
  · show (spawnExplosion _ _ _ _).enemies = _
    simp only [spawnExplosion]
    rw [f1]
    simp
  · show (spawnExplosion _ _ _ _).player.score = _
    simp only [spawnExplosion]
    rw [f2]

/-- A live basic adversary with 30 hp (killed by the bomb's 150). -/
def eC8a : EnemyJet :=
  { x := 200, y := 300, vx := 60, vy := 80, active := true, hp := 30,
    maxHp := 30, type := 0, shootTimer := 3/2, shootInterval := 3/2,
    moveTimer := 0, depth := 5, score := 100 }

/-- A live heavy adversary with 200 hp (survives the bomb's 150). -/
def eC8b : EnemyJet :=
  { x := 500, y := 400, vx := 40, vy := 60, active := true, hp := 200,
    maxHp := 200, type := 2, shootTimer := 4/5, shootInterval := 4/5,
    moveTimer := 0, depth := 5, score := 500 }

/-- A running session with `eC8a` and `eC8b` alive and 3 bombs. -/
def gC8 : Game :=
  { initGame with state := GameState.playing, enemies := [eC8a, eC8b] }

/-- C8 witness: one bomb at a concrete two-enemy state. -/
theorem C8_bomb_damages_all_witness :
    (playerBomb gC8).player.bombs = gC8.player.bombs - 1 :=
  (C8_bomb_damages_all gC8 (by decide)).1

/-- C2 (amended): a Boss is spawned — and the latch set — WHENEVER the
elapsed session time exceeds 90s and no boss is alive, not merely once
per session; the latch is cleared when a boss is killed by a player
projectile or guided munition, but NOT by a bomb (`playerBomb` never
writes `bossAlive`), so after a projectile or munition boss kill past 90s
the spawn condition re-fires and a second Boss spawns. -/
theorem C2_boss_latch (g : Game)
    (h90 : 90 < g.gameTime) (hna : g.bossAlive = false) :
    (bossSpawnStep g).bossAlive = true ∧
    (bossSpawnStep g).enemies.map (fun e => e.type)
      = g.enemies.map (fun e => e.type) ++ [3] ∧
    (∀ g', g'.bossAlive = true → bossSpawnStep g' = g') ∧
    (∀ g', (playerBomb g').bossAlive = g'.bossAlive) ∧
    (∀ g' b e, e.active = true →
        dist2Dsq b.x b.y e.x e.y < bulletHitR e * bulletHitR e →
        e.hp - b.damage ≤ 0 → e.type = 3 →
        (bulletHitEnemy g' b e).1.bossAlive = false) ∧
    (∀ g' m e, e.active = true →
        dist2Dsq m.x m.y e.x e.y < missileHitR e * missileHitR e →
        e.hp - m.damage ≤ 0 → e.type = 3 →
        (missileHitEnemy g' m e).1.bossAlive = false) := by
  refine ⟨?_, ?_, ?_, ?_, ?_, ?_⟩
  · simp [bossSpawnStep, spawnEnemy, randNext, h90, hna]
  · simp [bossSpawnStep, spawnEnemy, randNext, h90, hna]
  · intro g' hb
    unfold bossSpawnStep
    rw [if_neg (fun h => by simp [hb] at h)]
  · intro g'
    by_cases hbm : g'.player.bombs ≤ 0
    · unfold playerBomb
      rw [if_pos hbm]
    · obtain ⟨-, -, -, -, -, -, -, -, -, -, fba⟩ := bombFold_spec g'.enemies
        { g' with player := { g'.player with
            bombs := g'.player.bombs - 1 } } []
      unfold playerBomb
      rw [if_neg hbm]
      simp only [spawnExplosion]
      rw [fba]
  · intro g' b e hea hd hk ht
    simp only [bulletHitEnemy, spawnExplosion]
    rw [if_pos hea, if_pos hd]
    simp only [hk, ht, if_true, ite_true, if_pos]
    split <;> simp [spawnPowerup, randNext]
  · intro g' m e hea hd hk ht
    simp only [missileHitEnemy, spawnExplosion]
    rw [if_pos hea, if_pos hd]
    simp only [hk, ht, if_true, ite_true, if_pos]
    split <;> simp [spawnPowerup, randNext]

/-- A live Boss with 120 hp (killed by the bomb's 150). -/
def eC2 : EnemyJet :=
  { x := 360, y := 150, vx := 100, vy := 30, active := true, hp := 120,
    maxHp := 500, type := 3, shootTimer := 2/5, shootInterval := 2/5,
    moveTimer := 0, depth := 5, score := 5000 }

/-- A running session past 90s with the Boss `eC2` alive and one bomb. -/
def gC2 : Game :=
  { initGame with state := GameState.playing, gameTime := 120,
                  bossAlive := true, enemies := [eC2],
                  player := { initPlayer with bombs := 1 } }

/-- C2 counterexample: killing the boss with a bomb deactivates it but
leaves the boss-alive latch set — the latch is NOT cleared on the bomb
kill path, refuting the claim as stated. -/
theorem C2_counterexample :
    ((playerBomb gC2).enemies.map (fun e => e.active)) = [false] ∧
    (playerBomb gC2).bossAlive = true := by
  norm_num [playerBomb, bombStep, bombEnemy, spawnExplosion, gC2, eC2,
    initGame, initPlayer, SCREEN_W, SCREEN_H, HUD_H, PLAY_H]

/-- A running session past 90s with no boss alive. -/
def gW2 : Game :=
  { initGame with state := GameState.playing, gameTime := 100 }

/-- C2 witness: the boss spawn at a concrete past-90s state. -/
theorem C2_boss_latch_witness : (bossSpawnStep gW2).bossAlive = true :=
  (C2_boss_latch gW2 (by norm_num [gW2, initGame]) rfl).1

/-! ## C5: guided-munition kill bookkeeping -/

/-- C5 (amended): a kill by a player guided munition awards base score
× 2 and increments the kill count, but leaves the combo, the combo decay
timer and the level unchanged; a Boss kill by munition clears the
boss-alive latch without advancing the level.  The level is recomputed at
the end of every frame as `1 + floor(gameTime/30)`, independently of any
kill. -/
theorem C5_missile_kill_bookkeeping (g : Game) (m : Missile) (e : EnemyJet)
    (hea : e.active = true)
    (hd : dist2Dsq m.x m.y e.x e.y < missileHitR e * missileHitR e)
    (hk : e.hp - m.damage ≤ 0) :
    (missileHitEnemy g m e).1.player.score
      = g.player.score + e.score * 2 ∧
    (missileHitEnemy g m e).1.player.kills = g.player.kills + 1 ∧
    (missileHitEnemy g m e).1.combo = g.combo ∧
    (missileHitEnemy g m e).1.comboTimer = g.comboTimer ∧
    (missileHitEnemy g m e).1.player.level = g.player.level ∧
    (missileHitEnemy g m e).1.bossAlive
      = (if e.type = 3 then false else g.bossAlive) ∧
    (missileHitEnemy g m e).2.1.active = false ∧
    (missileHitEnemy g m e).2.2.active = false ∧
    (∀ g', (levelStep g').player.level = 1 + ⌊g'.gameTime / 30⌋) := by
  refine ⟨?_, ?_, ?_, ?_, ?_, ?_, ?_, ?_, fun g' => rfl⟩ <;>
    (simp only [missileHitEnemy, spawnExplosion] <;>
     rw [if_pos hea, if_pos hd] <;>
     simp only [hk, if_true, ite_true, if_pos] <;>
     simp [spawnPowerup, randNext, apply_ite])

/-- A live Boss with 40 hp, one munition hit from death. -/
def eC5 : EnemyJet :=
  { x := 360, y := 200, vx := 100, vy := 30, active := true, hp := 40,
    maxHp := 500, type := 3, shootTimer := 2/5, shootInterval := 2/5,
    moveTimer := 0, depth := 5, score := 5000 }

/-- A player munition of damage 50 at the Boss's position. -/
def mC5 : Missile :=
  { x := 360, y := 200, vx := 0, vy := -400, targetX := 360,
    targetY := 200, active := true, isEnemy := false, damage := 50,
    life := 2 }

/-- A running session past 90s with Boss `eC5` alive, zero combo. -/
def gC5 : Game :=
  { initGame with state := GameState.playing, gameTime := 95,
                  bossAlive := true, enemies := [eC5] }

/-- C5 counterexample: a guided-munition Boss kill awards 2× score and a
kill, but the combo stays 0 (not incremented), the combo timer stays 0
(not reset to 2) and the level stays 1 (not advanced), refuting the
claim. -/
theorem C5_counterexample :
    (missileHitEnemy gC5 mC5 eC5).1.player.score = 10000 ∧
    (missileHitEnemy gC5 mC5 eC5).1.player.kills = 1 ∧
    (missileHitEnemy gC5 mC5 eC5).2.2.active = false ∧
    (missileHitEnemy gC5 mC5 eC5).1.combo = 0 ∧
    (missileHitEnemy gC5 mC5 eC5).1.comboTimer = 0 ∧
    (missileHitEnemy gC5 mC5 eC5).1.player.level = 1 := by
  norm_num [missileHitEnemy, missileHitR, spawnExplosion, spawnPowerup,
    randNext, dist2Dsq, gC5, mC5, eC5, initGame, initPlayer, SCREEN_W,
    SCREEN_H, HUD_H, PLAY_H]

/-- C5 witness: the amended bookkeeping at the concrete Boss-kill state. -/
theorem C5_missile_kill_bookkeeping_witness :
    (missileHitEnemy gC5 mC5 eC5).1.player.kills
      = gC5.player.kills + 1 :=
  (C5_missile_kill_bookkeeping gC5 mC5 eC5 rfl
      (by norm_num [dist2Dsq, missileHitR, gC5, mC5, eC5])
      (by decide)).2.1

/-! ## C6: resource-counter bounds -/

/-- Counter sanity while a session is running (the precondition of the
amended C6 invariant): shield within [0, max], health within (0, max],
positive maxima, nonnegative ammo and bombs, at least one life. -/
abbrev CtrPre (g : Game) : Prop :=
  0 ≤ g.player.shield ∧ g.player.shield ≤ g.player.maxShield ∧
  0 ≤ g.player.maxShield ∧ 0 < g.player.hp ∧
  g.player.hp ≤ g.player.maxHp ∧ 0 < g.player.maxHp ∧
  0 ≤ g.player.ammo ∧ 0 ≤ g.player.bombs ∧ 1 ≤ g.player.lives

/-- The amended counter bounds after a step: shield within [0, max],
ammo, bombs and lives nonnegative, and health back within (0, max] with a
life left — EXCEPT on the session-ending hit, where the state is GameOver
and health may remain negative (the source never clamps it there). -/
abbrev CtrPost (g : Game) : Prop :=
  0 ≤ g.player.shield ∧ g.player.shield ≤ g.player.maxShield ∧
  0 ≤ g.player.ammo ∧ 0 ≤ g.player.bombs ∧ 0 ≤ g.player.lives ∧
  ((0 < g.player.hp ∧ g.player.hp ≤ g.player.maxHp ∧
      1 ≤ g.player.lives) ∨ g.state = GameState.gameover)

/-- C6 (amended): across the mutating steps — adversary bullet and
missile hits on the player, pickup collection, bomb, fire-munition and
fire-gun actions — the shield stays in [0, maxShield] and ammo, bombs and
lives stay nonnegative; health stays in [0, maxHealth] on every path
EXCEPT the session-ending hit (lives reaching 0), where the state
transitions to GameOver and health may remain negative.  Ammo and bombs
have no upper clamp (pickups add 5 ammo / 1 bomb unboundedly). -/
theorem C6_counters_bounded_except_gameover :
    (∀ g b, CtrPre g → 0 ≤ b.damage →
      CtrPost (bulletHitPlayer g b).1) ∧
    (∀ g m, CtrPre g → 0 ≤ m.damage →
      CtrPost (missileHitPlayer g m).1) ∧
    (∀ g pu, CtrPre g → CtrPost (updatePowerup g pu).1) ∧
    (∀ g, CtrPre g → CtrPost (playerBomb g)) ∧
    (∀ g len, CtrPre g → CtrPost (playerFireMissile g len)) ∧
    (∀ g, CtrPre g → CtrPost (playerShoot g)) := by
  refine ⟨?_, ?_, ?_, ?_, ?_, ?_⟩
  · intro g b hpre hdmg
    obtain ⟨h1, h2, h3, h4, h5, h6, h7, h8, h9⟩ := hpre
    simp only [bulletHitPlayer, spawnExplosion]
    split_ifs <;>
      (refine ⟨?_, ?_, ?_, ?_, ?_, ?_⟩ <;>
       dsimp only at * <;>
       first
         | omega
         | (right; rfl)
         | (left; refine ⟨by omega, by omega, by omega⟩))
  · intro g m hpre hdmg
    obtain ⟨h1, h2, h3, h4, h5, h6, h7, h8, h9⟩ := hpre
    simp only [missileHitPlayer, spawnExplosion]
    split_ifs <;>
      (refine ⟨?_, ?_, ?_, ?_, ?_, ?_⟩ <;>
       dsimp only at * <;>
       first
         | omega
         | (right; rfl)
         | (left; refine ⟨by omega, by omega, by omega⟩))
  · intro g pu hpre
    obtain ⟨h1, h2, h3, h4, h5, h6, h7, h8, h9⟩ := hpre
    simp only [updatePowerup, spawnExplosion]
    split_ifs <;>
      (refine ⟨?_, ?_, ?_, ?_, ?_, ?_⟩ <;>
       dsimp only at * <;>
       first
         | omega
         | (right; rfl)
         | (left; refine ⟨by omega, by omega, by omega⟩))
  · intro g hpre
    obtain ⟨h1, h2, h3, h4, h5, h6, h7, h8, h9⟩ := hpre
    have h0l : (0:ℤ) ≤ g.player.lives := by omega
    by_cases hbm : g.player.bombs ≤ 0
    · unfold playerBomb
      rw [if_pos hbm]
      exact ⟨h1, h2, h7, h8, h0l, Or.inl ⟨h4, h5, h9⟩⟩
    · obtain ⟨-, -, f3, f4, f5, f6, f7, f8, f9, -, -⟩ :=
        bombFold_spec g.enemies
          { g with player := { g.player with
              bombs := g.player.bombs - 1 } } []
      unfold playerBomb
      rw [if_neg hbm]
      simp only [spawnExplosion]
      refine ⟨?_, ?_, ?_, ?_, ?_, Or.inl ⟨?_, ?_, ?_⟩⟩
      · rw [f6]; exact h1
      · rw [f6, f7]; exact h2
      · rw [f8]; exact h7
      · rw [f3]
        show (0:ℤ) ≤ g.player.bombs - 1
        omega
      · rw [f9]; exact h0l
      · rw [f4]; exact h4
      · rw [f4, f5]; exact h5
      · rw [f9]; exact h9
  · intro g len hpre
    obtain ⟨h1, h2, h3, h4, h5, h6, h7, h8, h9⟩ := hpre
    have h0l : (0:ℤ) ≤ g.player.lives := by omega
    by_cases ha : g.player.ammo ≤ 0
    · unfold playerFireMissile
      rw [if_pos ha]
      exact ⟨h1, h2, h7, h8, h0l, Or.inl ⟨h4, h5, h9⟩⟩
    · have ha' : (0:ℤ) ≤ g.player.ammo - 1 := by omega
      unfold playerFireMissile
      rw [if_neg ha]
      simp only [spawnMissile]
      exact ⟨h1, h2, ha', h8, h0l, Or.inl ⟨h4, h5, h9⟩⟩
  · intro g hpre
    obtain ⟨h1, h2, h3, h4, h5, h6, h7, h8, h9⟩ := hpre
    have h0l : (0:ℤ) ≤ g.player.lives := by omega
    unfold playerShoot
    by_cases hc : 0 < g.player.shootTimer
    · rw [if_pos hc]
      exact ⟨h1, h2, h7, h8, h0l, Or.inl ⟨h4, h5, h9⟩⟩
    · rw [if_neg hc]
      simp only [spawnBullet]
      exact ⟨h1, h2, h7, h8, h0l, Or.inl ⟨h4, h5, h9⟩⟩

/-- A running session on the last life with 5 hp. -/
def gC6 : Game :=
  { initGame with state := GameState.playing,
                  player := { initPlayer with hp := 5, lives := 1 } }

/-- An adversary bullet of damage 10 at the player's position. -/
def bC6 : Bullet :=
  { x := initPlayer.x, y := initPlayer.y, vx := 0, vy := 250,
    active := true, isEnemy := true, damage := 10 }

/-- C6 counterexample: the session-ending bullet hit leaves health at
-5 — health is NOT clamped to [0, maxHealth] after this mutation,
refuting the claim as stated. -/
theorem C6_counterexample :
    (bulletHitPlayer gC6 bC6).1.player.hp = -5 ∧
    (bulletHitPlayer gC6 bC6).1.state = GameState.gameover := by
  norm_num [bulletHitPlayer, spawnExplosion, dist2Dsq, gC6, bC6, initGame,
    initPlayer, SCREEN_W, SCREEN_H, HUD_H, PLAY_H]

/-- A healthy running session. -/
def gW6 : Game := { initGame with state := GameState.playing }

/-- An adversary bullet of damage 10 at the player's position (used by
the C6 witness). -/
def bW6 : Bullet :=
  { x := initPlayer.x, y := initPlayer.y, vx := 0, vy := 250,
    active := true, isEnemy := true, damage := 10 }

/-- C6 witness: the amended bounds after a concrete bullet hit. -/
theorem C6_counters_bounded_except_gameover_witness :
    CtrPost (bulletHitPlayer gW6 bW6).1 :=
  C6_counters_bounded_except_gameover.1 gW6 bW6 (by decide) (by decide)

end Apefighter
